import Mathlib

/-!
Verification development for `generate_tcx.py`: a converter from a vendor
SQLite activity database to a TCX document.  The Python source is embedded
shallowly below: timestamps become `Rat` (seconds, with sub-second precision),
Python floats become `Rat`, Python `int(...)` truncation becomes `int_trunc`,
fallible functions return `Option`/`Except`.  Database queries and file I/O are
external collaborators; the row-processing logic that follows each query is
embedded as a function of the fetched rows.
-/

namespace GenerateTcx

/-- Python `int(q)` on a float/Rat: truncation toward zero. -/
def int_trunc (q : Rat) : Int :=
  if 0 ≤ q then ⌊q⌋ else ⌈q⌉

/-- Python `a % b` on floats for `b > 0` (result has the sign of `b`). -/
def pymod (a b : Rat) : Rat :=
  a - b * (⌊a / b⌋ : Int)

/-- Embeds `find_nearest_metric` (src/generate_tcx.py lines 83-96).
Python `min(metric_list, key=lambda metric: abs(metric[0] - target))` scans
left to right and replaces the current minimum only on a strictly smaller
key, so ties keep the earliest element; the empty case returns `None`. -/
def find_nearest_metric {α : Type} (target : Rat) (metric_list : List (Rat × α)) :
    Option α :=
  match metric_list with
  | [] => none
  | m :: rest =>
      some ((rest.foldl
        (fun acc x => if |x.1 - target| < |acc.1 - target| then x else acc) m).2)

/-- The two recognized database schema variants. -/
inductive Schema where
  | watch : Schema
  | iphone : Schema
deriving DecidableEq

/-- Embeds `detect_schema` (src/generate_tcx.py lines 98-109).  The Python
code builds the set of column names of the `metrics` table and classifies it;
the embedding takes that set directly. -/
def detect_schema (columns : Finset String) : Except String Schema :=
  if "value" ∈ columns ∧ "secondaryValue" ∈ columns then
    Except.ok Schema.watch
  else if "doubleValue" ∈ columns ∧ "intValue" ∈ columns then
    Except.ok Schema.iphone
  else
    Except.error "Unknown or invalid metrics table schema. Could not find required columns."

/-- One processed location sample (the dicts built in `fetch_data`,
src/generate_tcx.py lines 173-185). -/
structure LocationPoint where
  time : Rat
  latitude : Rat
  longitude : Rat
  altitude : Rat
deriving DecidableEq

/-- Embeds the watch-schema location preparation of `fetch_data`
(src/generate_tcx.py lines 177-185): each location row keeps its own time and
coordinates and receives the nearest altitude sample, defaulting to `0.0`
when the altitude series is empty. -/
def prepare_location_watch (altitude_data : List (Rat × Rat))
    (rows : List (Rat × Rat × Rat)) : List LocationPoint :=
  rows.map fun r =>
    { time := r.1
      latitude := r.2.1
      longitude := r.2.2
      altitude := (find_nearest_metric r.1 altitude_data).getD 0 }

/-- Embeds the heart-rate preparation of `fetch_data` (src/generate_tcx.py
line 189): `int(float(row[1]))` truncates toward zero. -/
def prepare_heart_rate (rows : List (Rat × Rat)) : List (Rat × Int) :=
  rows.map fun r => (r.1, int_trunc r.2)

/-- Embeds the cadence preparation of `fetch_data` (src/generate_tcx.py
line 193): `int(float(row[1]) / 2)` halves the raw steps-per-minute value and
truncates toward zero, yielding revolutions per minute. -/
def prepare_cadence (rows : List (Rat × Rat)) : List (Rat × Int) :=
  rows.map fun r => (r.1, int_trunc (r.2 / 2))

/-- Embeds the calorie extraction of `fetch_data` (src/generate_tcx.py lines
196-198).  The SQL `MAX` over the calorie rows is `none` when no row exists;
Python's `int(float(calories_raw) / 1000) if calories_raw else 0` maps a
missing or zero maximum to `0` and otherwise divides by 1000 and truncates. -/
def compute_calories (calories_raw : Option Rat) : Int :=
  match calories_raw with
  | some v => if v ≠ 0 then int_trunc (v / 1000) else 0
  | none => 0

/-- The SQL `SELECT MAX(value)` collaborator: the maximum of the fetched
column values, `none` when no row matches. -/
def sql_max (values : List Rat) : Option Rat :=
  values.max?

/-- The calories value produced by `fetch_data` from the raw calorie rows. -/
def fetch_calories (values : List Rat) : Int :=
  compute_calories (sql_max values)

/-- The activity summary computed by `calculate_and_print_summary`
(src/generate_tcx.py lines 35-66) before printing. -/
structure Summary where
  total_seconds : Rat
  total_distance : Rat
  km : Rat
  calories : Int
  elevation_gain : Rat
  secs_per_km : Rat
  pace_min : Int
  pace_sec : Int
  avg_hr : Rat
  avg_cadence_spm : Rat
deriving DecidableEq

/-- The distance loop of `calculate_and_print_summary` (src/generate_tcx.py
lines 44-48): the fold over consecutive location pairs of a pairwise distance
function.  The real program uses `haversine_distance`, a floating-point
trigonometric function; it enters the embedding as the parameter `dist`. -/
def total_distance_calc (dist : Rat → Rat → Rat → Rat → Rat)
    (location_data : List LocationPoint) : Rat :=
  (location_data.zip location_data.tail).foldl
    (fun acc q => acc + dist q.1.latitude q.1.longitude q.2.latitude q.2.longitude) 0

/-- The elevation-gain loop of `calculate_and_print_summary`
(src/generate_tcx.py lines 51-54): accumulate `alt[i] - alt[i-1]` exactly when
`alt[i] > alt[i-1]`. -/
def elevation_gain_calc (location_data : List LocationPoint) : Rat :=
  (location_data.zip location_data.tail).foldl
    (fun acc q =>
      if q.2.altitude > q.1.altitude then acc + (q.2.altitude - q.1.altitude)
      else acc) 0

/-- Embeds `calculate_and_print_summary` (src/generate_tcx.py lines 35-80):
the function returns early (here: `none`) on an empty location series, and
otherwise computes elapsed time, distance, elevation gain, guarded averages,
and the guarded pace.  Printing is an external side effect and is dropped. -/
def calculate_summary (dist : Rat → Rat → Rat → Rat → Rat)
    (location_data : List LocationPoint)
    (heart_rate_data cadence_data : List (Rat × Int))
    (calories : Int) : Option Summary :=
  match location_data with
  | [] => none
  | p0 :: rest =>
      let total_seconds :=
        ((p0 :: rest).getLast (List.cons_ne_nil p0 rest)).time - p0.time
      let total_distance := total_distance_calc dist (p0 :: rest)
      let elevation_gain := elevation_gain_calc (p0 :: rest)
      let avg_hr : Rat :=
        if heart_rate_data ≠ [] then
          ((heart_rate_data.map Prod.snd).sum : Int) / (heart_rate_data.length : Rat)
        else 0
      let avg_cadence_spm : Rat :=
        if cadence_data ≠ [] then
          (((cadence_data.map Prod.snd).sum : Int) / (cadence_data.length : Rat)) * 2
        else 0
      let km := total_distance / 1000
      let secs_per_km := if km > 0 then total_seconds / km else 0
      some
        { total_seconds := total_seconds
          total_distance := total_distance
          km := km
          calories := calories
          elevation_gain := elevation_gain
          secs_per_km := secs_per_km
          pace_min := ⌊secs_per_km / 60⌋
          pace_sec := int_trunc (pymod secs_per_km 60)
          avg_hr := avg_hr
          avg_cadence_spm := avg_cadence_spm }

/-- One `Trackpoint` element of the produced TCX tree (src/generate_tcx.py
lines 228-252): position and altitude from the location sample, optional
nearest heart rate and cadence. -/
structure Trackpoint where
  time : Rat
  latitude : Rat
  longitude : Rat
  altitude : Rat
  heartRateBpm : Option Int
  cadence : Option Int
deriving DecidableEq

/-- The complete TCX document assembled by `create_tcx_file`: the activity id
and lap start time (both the first location sample's time) and the trackpoint
sequence. -/
structure TCXDocument where
  activity_start : Rat
  lap_start : Rat
  trackpoints : List Trackpoint
deriving DecidableEq

/-- Embeds `create_tcx_file` (src/generate_tcx.py lines 203-259).  On an
empty location series the function reports the error and returns before any
document construction or file operation (here: `none`); otherwise the whole
document is assembled in memory — one trackpoint per location sample, with
the nearest heart-rate and cadence values attached — and only then written
out (here: returned as `some`). -/
def create_tcx_file (location_data : List LocationPoint)
    (heart_rate_data cadence_data : List (Rat × Int)) : Option TCXDocument :=
  match location_data with
  | [] => none
  | p0 :: rest =>
      some
        { activity_start := p0.time
          lap_start := p0.time
          trackpoints := (p0 :: rest).map fun point =>
            { time := point.time
              latitude := point.latitude
              longitude := point.longitude
              altitude := point.altitude
              heartRateBpm := find_nearest_metric point.time heart_rate_data
              cadence := find_nearest_metric point.time cadence_data } }

/-- A parsed Python `datetime`: calendar fields plus an optional fixed UTC
offset in seconds (`none` for a naive datetime). -/
structure PyDateTime where
  year : Nat
  month : Nat
  day : Nat
  hour : Nat
  minute : Nat
  second : Nat
  microsecond : Nat
  tz_offset_seconds : Option Int
deriving DecidableEq

/-- Gregorian leap-year rule, as used by Python's `datetime`. -/
def is_leap_year (y : Nat) : Bool :=
  (y % 4 == 0 && y % 100 != 0) || y % 400 == 0

/-- Days in a month, as used by Python's `datetime`. -/
def days_in_month (y m : Nat) : Nat :=
  if m = 2 then (if is_leap_year y then 29 else 28)
  else if m = 4 ∨ m = 6 ∨ m = 9 ∨ m = 11 then 30
  else 31

/-- The `datetime` constructor's field validation (MINYEAR = 1,
MAXYEAR = 9999; seconds 60-61 admitted by `strptime`'s regex are rejected
here, raising `ValueError`). -/
def datetime_valid (y m d h mi s us : Nat) : Prop :=
  1 ≤ y ∧ y ≤ 9999 ∧ 1 ≤ m ∧ m ≤ 12 ∧ 1 ≤ d ∧ d ≤ days_in_month y m ∧
    h ≤ 23 ∧ mi ≤ 59 ∧ s ≤ 59 ∧ us ≤ 999999

instance (y m d h mi s us : Nat) : Decidable (datetime_valid y m d h mi s us) := by
  unfold datetime_valid
  infer_instance

/-- Constructing a `datetime` value: `none` models the constructor raising
`ValueError` on out-of-range fields. -/
def mk_datetime (y m d h mi s us : Nat) (tz : Option Int) : Option PyDateTime :=
  if datetime_valid y m d h mi s us then some ⟨y, m, d, h, mi, s, us, tz⟩
  else none

/-- Numeric value of a decimal digit character. -/
def digitVal (c : Char) : Nat :=
  c.toNat - 48

/-- Exactly `n` decimal digits, accumulated left to right. -/
def parse_digits_acc : Nat → Nat → List Char → Option (Nat × List Char)
  | 0, acc, cs => some (acc, cs)
  | _ + 1, _, [] => none
  | n + 1, acc, c :: cs =>
      if c.isDigit then parse_digits_acc n (acc * 10 + digitVal c) cs else none

/-- One expected literal character. -/
def expect_char (c : Char) : List Char → Option (List Char)
  | x :: xs => if x = c then some xs else none
  | [] => none

/-- A two-digit-or-one-digit numeric field in the style of CPython's
`_strptime` regexes: the two-character alternatives are tried first, then the
single-character one (the following literal separators are never digits, so
committing to the two-character match is faithful to regex backtracking). -/
def parse_field_2or1 (two_ok : Char → Char → Bool) (one_ok : Char → Bool) :
    List Char → Option (Nat × List Char)
  | c1 :: c2 :: rest =>
      if two_ok c1 c2 then some (digitVal c1 * 10 + digitVal c2, rest)
      else if one_ok c1 then some (digitVal c1, c2 :: rest)
      else none
  | [c1] => if one_ok c1 then some (digitVal c1, []) else none
  | [] => none

/-- `%m`: CPython regex `1[0-2]|0[1-9]|[1-9]`. -/
def parse_month : List Char → Option (Nat × List Char) :=
  parse_field_2or1
    (fun c1 c2 => (c1 == '1' && '0' ≤ c2 && c2 ≤ '2') ||
      (c1 == '0' && '1' ≤ c2 && c2 ≤ '9'))
    (fun c1 => '1' ≤ c1 && c1 ≤ '9')

/-- `%d`: CPython regex `3[01]|[12]\d|0[1-9]|[1-9]`. -/
def parse_day : List Char → Option (Nat × List Char) :=
  parse_field_2or1
    (fun c1 c2 => (c1 == '3' && '0' ≤ c2 && c2 ≤ '1') ||
      ('1' ≤ c1 && c1 ≤ '2' && c2.isDigit) ||
      (c1 == '0' && '1' ≤ c2 && c2 ≤ '9'))
    (fun c1 => '1' ≤ c1 && c1 ≤ '9')

/-- `%H`: CPython regex `2[0-3]|[0-1]\d|\d`. -/
def parse_hour : List Char → Option (Nat × List Char) :=
  parse_field_2or1
    (fun c1 c2 => (c1 == '2' && '0' ≤ c2 && c2 ≤ '3') ||
      ('0' ≤ c1 && c1 ≤ '1' && c2.isDigit))
    Char.isDigit

/-- `%M`: CPython regex `[0-5]\d|\d`. -/
def parse_minute : List Char → Option (Nat × List Char) :=
  parse_field_2or1 (fun c1 c2 => '0' ≤ c1 && c1 ≤ '5' && c2.isDigit)
    Char.isDigit

/-- `%S`: CPython regex `6[0-1]|[0-5]\d|\d` (leap seconds pass the regex and
are rejected later by the `datetime` constructor). -/
def parse_second : List Char → Option (Nat × List Char) :=
  parse_field_2or1
    (fun c1 c2 => (c1 == '6' && '0' ≤ c2 && c2 ≤ '1') ||
      ('0' ≤ c1 && c1 ≤ '5' && c2.isDigit))
    Char.isDigit

/-- ASCII whitespace, the characters matched by `\s` in `_strptime`'s
regexes (a whitespace run in the format string becomes `\s+`). -/
def is_py_space (c : Char) : Bool :=
  c == ' ' || c == '\t' || c == '\n' || c == '\r' || c == '\x0b' || c == '\x0c'

/-- One or more whitespace characters. -/
def skip_spaces1 : List Char → Option (List Char)
  | c :: cs => if is_py_space c then some (cs.dropWhile is_py_space) else none
  | [] => none

/-- Decimal value of a digit run. -/
def digits_val (l : List Char) : Nat :=
  l.foldl (fun a c => a * 10 + digitVal c) 0

/-- `%f`: one to six digits, greedy, right-padded with zeros to give
microseconds. -/
def parse_fraction (cs : List Char) : Option (Nat × List Char) :=
  let ds := cs.takeWhile Char.isDigit
  if ds.isEmpty then none
  else
    let taken := ds.take 6
    some (digits_val taken * 10 ^ (6 - taken.length), cs.drop taken.length)

/-- The shared `%Y-%m-%d %H:%M:%S` prefix of the two `strptime` formats
tried by `parse_time` (src/generate_tcx.py line 10). -/
def strptime_prefix (cs : List Char) :
    Option ((Nat × Nat × Nat × Nat × Nat × Nat) × List Char) := do
  let (y, cs) ← parse_digits_acc 4 0 cs
  let cs ← expect_char '-' cs
  let (m, cs) ← parse_month cs
  let cs ← expect_char '-' cs
  let (d, cs) ← parse_day cs
  let cs ← skip_spaces1 cs
  let (h, cs) ← parse_hour cs
  let cs ← expect_char ':' cs
  let (mi, cs) ← parse_minute cs
  let cs ← expect_char ':' cs
  let (s, cs) ← parse_second cs
  pure ((y, m, d, h, mi, s), cs)

/-- Modelled CPython `datetime.strptime` with format
`"%Y-%m-%d %H:%M:%S.%f"`: the full input must be consumed
(`unconverted data remains` otherwise), then the `datetime` constructor
validates the fields. -/
def strptime_frac (s : String) : Option PyDateTime :=
  match strptime_prefix s.data with
  | some ((y, m, d, h, mi, sec), cs) =>
      match expect_char '.' cs with
      | some cs2 =>
          match parse_fraction cs2 with
          | some (us, []) => mk_datetime y m d h mi sec us none
          | _ => none
      | none => none
  | none => none

/-- Modelled CPython `datetime.strptime` with format
`"%Y-%m-%d %H:%M:%S"`. -/
def strptime_nofrac (s : String) : Option PyDateTime :=
  match strptime_prefix s.data with
  | some ((y, m, d, h, mi, sec), []) => mk_datetime y m d h mi sec 0 none
  | _ => none

/-- Optional `:SS[.fff or .ffffff]` part of an ISO time. -/
def parse_opt_sec_frac : List Char → Option (Nat × Nat × List Char)
  | ':' :: cs2 =>
      match parse_digits_acc 2 0 cs2 with
      | some (sec, '.' :: cs4) =>
          let ds := cs4.takeWhile Char.isDigit
          if ds.length = 3 then some (sec, digits_val ds * 1000, cs4.drop 3)
          else if ds.length = 6 then some (sec, digits_val ds, cs4.drop 6)
          else none
      | some (sec, cs3) => some (sec, 0, cs3)
      | none => none
  | cs => some (0, 0, cs)

/-- Optional `:SS` part of an ISO offset. -/
def parse_opt_colon_sec : List Char → Option (Nat × List Char)
  | ':' :: cs2 => parse_digits_acc 2 0 cs2
  | cs => some (0, cs)

/-- Modelled CPython `datetime.fromisoformat`, restricted to the grammar
common to every supported CPython version (exactly the output format of
`datetime.isoformat`): `YYYY-MM-DD`, an optional single separator character
followed by `HH:MM[:SS[.fff or .ffffff]]`, and an optional offset
`+HH:MM[:SS]` or `-HH:MM[:SS]`; nothing may follow. -/
def fromisoformat (s : String) : Option PyDateTime := do
  let (y, cs) ← parse_digits_acc 4 0 s.data
  let cs ← expect_char '-' cs
  let (m, cs) ← parse_digits_acc 2 0 cs
  let cs ← expect_char '-' cs
  let (d, cs) ← parse_digits_acc 2 0 cs
  match cs with
  | [] => mk_datetime y m d 0 0 0 0 none
  | _sep :: cs2 => do
      let (h, cs3) ← parse_digits_acc 2 0 cs2
      let cs4 ← expect_char ':' cs3
      let (mi, cs5) ← parse_digits_acc 2 0 cs4
      let (sec, us, cs6) ← parse_opt_sec_frac cs5
      match cs6 with
      | [] => mk_datetime y m d h mi sec us none
      | c :: cs7 =>
          if c = '+' ∨ c = '-' then do
            let (oh, cs8) ← parse_digits_acc 2 0 cs7
            let cs9 ← expect_char ':' cs8
            let (om, cs10) ← parse_digits_acc 2 0 cs9
            let (os, cs11) ← parse_opt_colon_sec cs10
            if cs11 = [] ∧ oh ≤ 23 ∧ om ≤ 59 ∧ os ≤ 59 then
              let total : Int := (oh * 3600 + om * 60 + os : Nat)
              mk_datetime y m d h mi sec us
                (some (if c = '-' then -total else total))
            else none
          else none

/-- Python `str.replace` for a single-character pattern, as used by
`timestamp_str.replace('Z', '+00:00')` (src/generate_tcx.py line 17): every
occurrence is replaced. -/
def replace_char (c : Char) (rep : List Char) : List Char → List Char
  | [] => []
  | x :: xs =>
      if x = c then rep ++ replace_char c rep xs else x :: replace_char c rep xs

/-- String-level wrapper for `replace_char`. -/
def py_replace_char (s : String) (c : Char) (rep : String) : String :=
  String.mk (replace_char c rep.data s.data)

/-- Embeds `parse_time` (src/generate_tcx.py lines 8-18): the two `strptime`
formats are tried in order with `ValueError` caught; then, if the text
contains a `T`, every `Z` is replaced by `+00:00` and `fromisoformat` is
applied (its `ValueError` propagates uncaught); otherwise the function
raises its own `ValueError`. -/
def parse_time (timestamp_str : String) : Except String PyDateTime :=
  match strptime_frac timestamp_str with
  | some dt => Except.ok dt
  | none =>
      match strptime_nofrac timestamp_str with
      | some dt => Except.ok dt
      | none =>
          if timestamp_str.data.contains 'T' then
            match fromisoformat (py_replace_char timestamp_str 'Z' "+00:00") with
            | some dt => Except.ok dt
            | none => Except.error "Invalid isoformat string"
          else
            Except.error ("no valid date format found for " ++ timestamp_str)

/-- A natural number rendered in decimal, left-padded with zeros to width
`w`. -/
def nat_pad (w n : Nat) : String :=
  let s := toString n
  String.mk (List.replicate (w - s.length) '0') ++ s

/-- Python's rendering of a fixed UTC offset inside `isoformat`:
`+HH:MM` or `-HH:MM`, with `:SS` appended when the offset has seconds. -/
def render_offset (o : Int) : String :=
  let sign := if o < 0 then "-" else "+"
  let a := o.natAbs
  sign ++ nat_pad 2 (a / 3600) ++ ":" ++ nat_pad 2 (a % 3600 / 60) ++
    (if a % 60 ≠ 0 then ":" ++ nat_pad 2 (a % 60) else "")

/-- Modelled CPython `datetime.isoformat()`:
`YYYY-MM-DDTHH:MM:SS[.ffffff]` followed by the UTC offset when the datetime
is aware. -/
def isoformat (dt : PyDateTime) : String :=
  nat_pad 4 dt.year ++ "-" ++ nat_pad 2 dt.month ++ "-" ++ nat_pad 2 dt.day ++
    "T" ++ nat_pad 2 dt.hour ++ ":" ++ nat_pad 2 dt.minute ++ ":" ++
    nat_pad 2 dt.second ++
    (if dt.microsecond ≠ 0 then "." ++ nat_pad 6 dt.microsecond else "") ++
    (match dt.tz_offset_seconds with
     | some o => render_offset o
     | none => "")

/-- The timestamp text emitted for the activity id and every trackpoint
(src/generate_tcx.py lines 220 and 232): `point['time'].isoformat() + "Z"`. -/
def render_time_z (dt : PyDateTime) : String :=
  isoformat dt ++ "Z"

/-- The spec's end-to-end scenario, location query rows: three samples at
t = 0, 1, 2 seconds, coordinates advancing 0.0001 degrees per second. -/
def scenario_location_rows : List (Rat × Rat × Rat) :=
  [(0, 0, 0), (1, 1 / 10000, 1 / 10000), (2, 2 / 10000, 2 / 10000)]

/-- Scenario altitude rows: altitudes 10, 12, 11 m at t = 0, 1, 2 s. -/
def scenario_altitude_rows : List (Rat × Rat) :=
  [(0, 10), (1, 12), (2, 11)]

/-- Scenario heart-rate rows: 140 bpm at t = 0.5 s and 150 bpm at t = 1.5 s. -/
def scenario_hr_rows : List (Rat × Rat) :=
  [(1 / 2, 140), (3 / 2, 150)]

/-- Scenario cadence rows: raw steps-per-minute values 170 and 180 at
t = 0 and t = 2 s. -/
def scenario_cadence_rows : List (Rat × Rat) :=
  [(0, 170), (2, 180)]

/-- Scenario calorie rows: a single raw value of 250000 thousandths. -/
def scenario_calorie_values : List Rat :=
  [250000]

/-- The scenario's processed location series. -/
def scenario_location_data : List LocationPoint :=
  prepare_location_watch scenario_altitude_rows scenario_location_rows

/-- The scenario's processed heart-rate series. -/
def scenario_hr_data : List (Rat × Int) :=
  prepare_heart_rate scenario_hr_rows

/-- The scenario's processed cadence series (halved to RPM). -/
def scenario_cadence_data : List (Rat × Int) :=
  prepare_cadence scenario_cadence_rows

/-- The scenario's extracted calories. -/
def scenario_calories : Int :=
  fetch_calories scenario_calorie_values

end GenerateTcx

namespace GenerateTcx

/-- One step of Python `min` with a key: keep the accumulator unless the new
element's key is strictly smaller. -/
def pymin_step {α : Type} (key : Rat × α → Rat) (acc x : Rat × α) : Rat × α :=
  if key x < key acc then x else acc

/-- Python `min` with a key, over a nonempty list `x :: xs`, returns the
first element attaining the minimal key: the list splits as
`l1 ++ result :: l2` with every key in `l1` strictly above the result's key
and every key in `l2` at or above it. -/
theorem foldl_min_split {α : Type} (key : Rat × α → Rat) :
    ∀ (xs : List (Rat × α)) (x : Rat × α),
    ∃ l1 l2,
      x :: xs = l1 ++ (xs.foldl (pymin_step key) x) :: l2 ∧
      (∀ y ∈ l1, key (xs.foldl (pymin_step key) x) < key y) ∧
      (∀ y ∈ l2, key (xs.foldl (pymin_step key) x) ≤ key y) := by
  intro xs
  induction xs with
  | nil =>
      intro x
      exact ⟨[], [], rfl, by simp, by simp⟩
  | cons y ys ih =>
      intro x
      have hstep : (y :: ys).foldl (pymin_step key) x
          = ys.foldl (pymin_step key) (pymin_step key x y) := rfl
      by_cases h : key y < key x
      · -- the accumulator is replaced by `y`
        have hxy : pymin_step key x y = y := if_pos h
        rw [hstep, hxy]
        obtain ⟨l1, l2, hsplit, hl1, hl2⟩ := ih y
        refine ⟨x :: l1, l2, ?_, ?_, hl2⟩
        · rw [List.cons_append, ← hsplit]
        · intro z hz
          have hmy : key (ys.foldl (pymin_step key) y) ≤ key y := by
            have hmem : y ∈ l1 ++ (ys.foldl (pymin_step key) y) :: l2 :=
              hsplit ▸ List.mem_cons_self y ys
            rcases List.mem_append.mp hmem with h1 | h2
            · exact le_of_lt (hl1 y h1)
            · rcases List.mem_cons.mp h2 with h2 | h2
              · exact le_of_eq (by rw [← h2])
              · exact hl2 y h2
          rcases List.mem_cons.mp hz with h1 | h1
          · rw [h1]
            exact lt_of_le_of_lt hmy h
          · exact hl1 z h1
      · -- the accumulator stays `x`
        have hxy : pymin_step key x y = x := if_neg h
        rw [hstep, hxy]
        obtain ⟨l1, l2, hsplit, hl1, hl2⟩ := ih x
        cases l1 with
        | nil =>
            obtain ⟨hx, hys⟩ := List.cons.inj (by simpa using hsplit)
            refine ⟨[], y :: ys, ?_, by simp, ?_⟩
            · rw [List.nil_append, ← hx]
            · intro z hz
              rcases List.mem_cons.mp hz with h1 | h1
              · rw [h1, ← hx]
                exact le_of_not_lt h
              · exact hl2 z (hys ▸ h1)
        | cons a l1t =>
            obtain ⟨hax, hys⟩ := List.cons.inj (by simpa using hsplit)
            have hmx : key (ys.foldl (pymin_step key) x) < key x := by
              have h1 := hl1 a (List.mem_cons_self a l1t)
              rw [← hax] at h1
              exact h1
            refine ⟨x :: y :: l1t, l2, ?_, ?_, hl2⟩
            · rw [List.cons_append, List.cons_append, ← hys]
            · intro z hz
              rcases List.mem_cons.mp hz with h1 | h1
              · rw [h1]
                exact hmx
              rcases List.mem_cons.mp h1 with h2 | h2
              · rw [h2]
                exact lt_of_lt_of_le hmx (le_of_not_lt h)
              · exact hl1 z (List.mem_cons_of_mem a h2)

/-- `find_nearest_metric` on a nonempty list splits the list around the
returned element: everything before it has strictly larger distance to the
target, everything after it has distance at least as large. -/
theorem find_nearest_metric_split {α : Type} (target : Rat) (x : Rat × α)
    (xs : List (Rat × α)) :
    ∃ l1 p l2,
      x :: xs = l1 ++ p :: l2 ∧
      find_nearest_metric target (x :: xs) = some p.2 ∧
      (∀ q ∈ l1, |p.1 - target| < |q.1 - target|) ∧
      (∀ q ∈ l2, |p.1 - target| ≤ |q.1 - target|) := by
  obtain ⟨l1, l2, hsplit, hl1, hl2⟩ :=
    foldl_min_split (fun p => |p.1 - target|) xs x
  exact ⟨l1, xs.foldl (pymin_step fun p => |p.1 - target|) x, l2, hsplit, rfl,
    hl1, hl2⟩

/-- C1: `find_nearest_metric` returns `none` on an empty series; on a
nonempty series it returns the value paired with a timestamp whose absolute
difference from the target is at most that of every entry, and every entry
strictly before the returned one has a strictly larger difference (so the
first entry attaining the minimum is returned). -/
theorem find_nearest_metric_stable_min {α : Type} (target : Rat)
    (l : List (Rat × α)) :
    find_nearest_metric target ([] : List (Rat × α)) = none ∧
    (l ≠ [] → ∃ l1 p l2,
      l = l1 ++ p :: l2 ∧
      find_nearest_metric target l = some p.2 ∧
      (∀ q ∈ l, |p.1 - target| ≤ |q.1 - target|) ∧
      (∀ q ∈ l1, |p.1 - target| < |q.1 - target|)) := by
  refine ⟨rfl, ?_⟩
  intro h
  cases l with
  | nil => exact absurd rfl h
  | cons x xs =>
      obtain ⟨l1, p, l2, hsplit, hval, hl1, hl2⟩ :=
        find_nearest_metric_split target x xs
      refine ⟨l1, p, l2, hsplit, hval, ?_, hl1⟩
      intro q hq
      rw [hsplit] at hq
      rcases List.mem_append.mp hq with h1 | h1
      · exact le_of_lt (hl1 q h1)
      · rcases List.mem_cons.mp h1 with h2 | h2
        · rw [h2]
        · exact hl2 q h2

/-- C1 witness: a concrete run on a two-entry series. -/
theorem find_nearest_metric_stable_min_witness :
    ([((3 : Rat), (10 : Int)), (0, 20), (1, 30)] ≠ []) ∧
    (∃ l1 p l2,
      [((3 : Rat), (10 : Int)), (0, 20), (1, 30)] = l1 ++ p :: l2 ∧
      find_nearest_metric 0 [((3 : Rat), (10 : Int)), (0, 20), (1, 30)] = some p.2 ∧
      (∀ q ∈ [((3 : Rat), (10 : Int)), (0, 20), (1, 30)], |p.1 - 0| ≤ |q.1 - 0|) ∧
      (∀ q ∈ l1, |p.1 - 0| < |q.1 - 0|)) :=
  ⟨by decide,
    (find_nearest_metric_stable_min 0 [(3, 10), (0, 20), (1, 30)]).2 (by decide)⟩

/-- C9: `find_nearest_metric` needs no sortedness assumption: for a nonempty
series in any order it returns the value at the least index attaining the
minimal absolute difference from the target. -/
theorem find_nearest_metric_no_sorted_needed {α : Type} (target : Rat)
    (l : List (Rat × α)) (h : l ≠ []) :
    ∃ i : Fin l.length,
      find_nearest_metric target l = some (l.get i).2 ∧
      (∀ j : Fin l.length, |(l.get i).1 - target| ≤ |(l.get j).1 - target|) ∧
      (∀ j : Fin l.length, (j : Nat) < (i : Nat) →
        |(l.get i).1 - target| < |(l.get j).1 - target|) := by
  cases l with
  | nil => exact absurd rfl h
  | cons x xs =>
      obtain ⟨l1, p, l2, hsplit, hval, hl1, hl2⟩ :=
        find_nearest_metric_split target x xs
      rw [hsplit] at hval ⊢
      have hlen : l1.length < (l1 ++ p :: l2).length := by
        rw [List.length_append]
        simp
      refine ⟨⟨l1.length, hlen⟩, ?_, ?_, ?_⟩
      · have hget : (l1 ++ p :: l2).get ⟨l1.length, hlen⟩ = p := by
          rw [List.get_eq_getElem]
          rw [List.getElem_append_right (le_refl l1.length)]
          simp
        rw [hget, hval]
      · intro j
        have hget : (l1 ++ p :: l2).get ⟨l1.length, hlen⟩ = p := by
          rw [List.get_eq_getElem]
          rw [List.getElem_append_right (le_refl l1.length)]
          simp
        rw [hget]
        have hmem : (l1 ++ p :: l2).get j ∈ l1 ++ p :: l2 := List.get_mem _ _ _
        rcases List.mem_append.mp hmem with h1 | h1
        · exact le_of_lt (hl1 _ h1)
        · rcases List.mem_cons.mp h1 with h2 | h2
          · rw [h2]
          · exact hl2 _ h2
      · intro j hj
        have hget : (l1 ++ p :: l2).get ⟨l1.length, hlen⟩ = p := by
          rw [List.get_eq_getElem]
          rw [List.getElem_append_right (le_refl l1.length)]
          simp
        rw [hget]
        have hj1 : (j : Nat) < l1.length := hj
        have hgetj : (l1 ++ p :: l2).get j = l1.get ⟨j, hj1⟩ := by
          rw [List.get_eq_getElem, List.get_eq_getElem]
          exact List.getElem_append_left hj1
        rw [hgetj]
        exact hl1 _ (List.get_mem _ _ _)

/-- C9 witness: a concrete unsorted series. -/
theorem find_nearest_metric_no_sorted_needed_witness :
    ([((5 : Rat), (1 : Int)), (2, 7), (9, 4)] ≠ []) ∧
    (∃ i : Fin ([((5 : Rat), (1 : Int)), (2, 7), (9, 4)]).length,
      find_nearest_metric 3 [((5 : Rat), (1 : Int)), (2, 7), (9, 4)]
        = some (([((5 : Rat), (1 : Int)), (2, 7), (9, 4)]).get i).2 ∧
      (∀ j : Fin ([((5 : Rat), (1 : Int)), (2, 7), (9, 4)]).length,
        |(([((5 : Rat), (1 : Int)), (2, 7), (9, 4)]).get i).1 - 3|
          ≤ |(([((5 : Rat), (1 : Int)), (2, 7), (9, 4)]).get j).1 - 3|) ∧
      (∀ j : Fin ([((5 : Rat), (1 : Int)), (2, 7), (9, 4)]).length,
        (j : Nat) < (i : Nat) →
        |(([((5 : Rat), (1 : Int)), (2, 7), (9, 4)]).get i).1 - 3|
          < |(([((5 : Rat), (1 : Int)), (2, 7), (9, 4)]).get j).1 - 3|)) :=
  ⟨by decide, find_nearest_metric_no_sorted_needed 3 [(5, 1), (2, 7), (9, 4)]
    (by decide)⟩

/-- C2: schema detection is a total deterministic function of the column-name
set: both `value` and `secondaryValue` present yields WATCH; otherwise both
`doubleValue` and `intValue` present yields IPHONE; every other column set
yields the unknown-schema error. -/
theorem detect_schema_total_cases (columns : Finset String) :
    (detect_schema columns = Except.ok Schema.watch ↔
      "value" ∈ columns ∧ "secondaryValue" ∈ columns) ∧
    (detect_schema columns = Except.ok Schema.iphone ↔
      (¬("value" ∈ columns ∧ "secondaryValue" ∈ columns) ∧
        "doubleValue" ∈ columns ∧ "intValue" ∈ columns)) ∧
    ((∃ e, detect_schema columns = Except.error e) ↔
      (¬("value" ∈ columns ∧ "secondaryValue" ∈ columns) ∧
        ¬("doubleValue" ∈ columns ∧ "intValue" ∈ columns))) := by
  unfold detect_schema
  by_cases h1 : "value" ∈ columns ∧ "secondaryValue" ∈ columns
  · simp [h1]
  · by_cases h2 : "doubleValue" ∈ columns ∧ "intValue" ∈ columns
    · simp [h1, h2]
    · simp [h1, h2]

/-- The elevation-gain fold equals its initial value plus the sum of the
positive consecutive altitude deltas. -/
theorem elevation_foldl_sum :
    ∀ (l : List (LocationPoint × LocationPoint)) (init : Rat),
    l.foldl
      (fun acc q =>
        if q.2.altitude > q.1.altitude then acc + (q.2.altitude - q.1.altitude)
        else acc) init
    = init + (l.map fun q =>
        if q.2.altitude > q.1.altitude then q.2.altitude - q.1.altitude else 0).sum := by
  intro l
  induction l with
  | nil => intro init; simp
  | cons a t ih =>
      intro init
      by_cases h : a.2.altitude > a.1.altitude
      · simp only [List.foldl, List.map, List.sum_cons, if_pos h, ih]
        ring
      · simp only [List.foldl, List.map, List.sum_cons, if_neg h, ih]
        ring

/-- Appending a final point extends the consecutive-pair list by the pair of
the previous last point and the new point. -/
theorem zip_tail_append (p : LocationPoint) :
    ∀ (l : List LocationPoint) (h : l ≠ []),
    (l ++ [p]).zip (l ++ [p]).tail = l.zip l.tail ++ [(l.getLast h, p)] := by
  intro l
  induction l with
  | nil => intro h; exact absurd rfl h
  | cons a t ih =>
      intro h
      cases t with
      | nil => rfl
      | cons b t2 =>
          have hbt : (b :: t2 : List LocationPoint) ≠ [] := List.cons_ne_nil b t2
          have hlast : (a :: b :: t2).getLast h = (b :: t2).getLast hbt :=
            List.getLast_cons hbt
          rw [hlast]
          have hstep : ((a :: b :: t2) ++ [p]).zip (((a :: b :: t2) ++ [p]).tail)
              = (a, b) :: ((b :: t2) ++ [p]).zip (((b :: t2) ++ [p]).tail) := rfl
          rw [hstep, ih hbt]
          rfl

/-- C4: the elevation gain is the sum over consecutive pairs of the altitude
delta restricted to strictly ascending pairs, and appending a point whose
altitude is at most the previous last altitude leaves the gain unchanged. -/
theorem elevation_gain_spec (location_data : List LocationPoint) :
    elevation_gain_calc location_data =
      ((location_data.zip location_data.tail).map fun q =>
        if q.2.altitude > q.1.altitude then q.2.altitude - q.1.altitude else 0).sum ∧
    (∀ (p : LocationPoint) (h : location_data ≠ []),
      p.altitude ≤ (location_data.getLast h).altitude →
      elevation_gain_calc (location_data ++ [p]) = elevation_gain_calc location_data) := by
  constructor
  · unfold elevation_gain_calc
    rw [elevation_foldl_sum]
    ring
  · intro p h hle
    unfold elevation_gain_calc
    rw [zip_tail_append p location_data h, List.foldl_append]
    have hnot : ¬ (p.altitude > (location_data.getLast h).altitude) := not_lt.mpr hle
    simp [List.foldl, hnot]

/-- C4 witness: appending an altitude-11 point after a 10 then 12 climb
leaves the gain at 2. -/
theorem elevation_gain_spec_witness :
    (([⟨0, 0, 0, 10⟩, ⟨1, 0, 0, 12⟩] : List LocationPoint) ≠ []) ∧
    ((⟨2, 0, 0, 11⟩ : LocationPoint).altitude ≤
      (([⟨0, 0, 0, 10⟩, ⟨1, 0, 0, 12⟩] : List LocationPoint).getLast (by decide)).altitude) ∧
    elevation_gain_calc ([⟨0, 0, 0, 10⟩, ⟨1, 0, 0, 12⟩] ++ [⟨2, 0, 0, 11⟩])
      = elevation_gain_calc [⟨0, 0, 0, 10⟩, ⟨1, 0, 0, 12⟩] :=
  ⟨by decide, by decide,
    (elevation_gain_spec [⟨0, 0, 0, 10⟩, ⟨1, 0, 0, 12⟩]).2 ⟨2, 0, 0, 11⟩
      (by decide) (by decide)⟩

/-- C5: in the summary, the pace in seconds per kilometre equals elapsed
seconds divided by the distance in kilometres whenever the total distance is
strictly positive, and is 0 when the total distance is 0 (the division is
guarded by the `km > 0` test). -/
theorem pace_guard (dist : Rat → Rat → Rat → Rat → Rat)
    (location_data : List LocationPoint)
    (heart_rate_data cadence_data : List (Rat × Int)) (calories : Int)
    (s : Summary)
    (hs : calculate_summary dist location_data heart_rate_data cadence_data calories
      = some s) :
    (s.total_distance > 0 →
      s.secs_per_km = s.total_seconds / (s.total_distance / 1000)) ∧
    (s.total_distance = 0 → s.secs_per_km = 0) := by
  cases location_data with
  | nil => simp [calculate_summary] at hs
  | cons p0 rest =>
      simp only [calculate_summary] at hs
      have hrec := Option.some.inj hs
      subst hrec
      constructor
      · intro hpos
        have hkm : total_distance_calc dist (p0 :: rest) / 1000 > 0 :=
          div_pos hpos (by norm_num)
        simp only [if_pos hkm]
      · intro h0
        simp only at h0 ⊢
        rw [h0]
        norm_num

/-- A single-point activity with a zero distance function yields the all-zero
summary. -/
theorem single_point_summary :
    calculate_summary (fun _ _ _ _ => 0) [⟨0, 0, 0, 0⟩] [] [] 0
      = some ⟨0, 0, 0, 0, 0, 0, 0, 0, 0, 0⟩ := by
  norm_num [calculate_summary, total_distance_calc, elevation_gain_calc,
    pymod, int_trunc, Summary.mk.injEq]

/-- C5 witness: a single-point run has distance 0 and pace 0. -/
theorem pace_guard_witness :
    calculate_summary (fun _ _ _ _ => 0) [⟨0, 0, 0, 0⟩] [] [] 0
      = some ⟨0, 0, 0, 0, 0, 0, 0, 0, 0, 0⟩ ∧
    ((⟨0, 0, 0, 0, 0, 0, 0, 0, 0, 0⟩ : Summary).total_distance = 0 →
      (⟨0, 0, 0, 0, 0, 0, 0, 0, 0, 0⟩ : Summary).secs_per_km = 0) :=
  ⟨single_point_summary,
    (pace_guard (fun _ _ _ _ => 0) [⟨0, 0, 0, 0⟩] [] [] 0
      ⟨0, 0, 0, 0, 0, 0, 0, 0, 0, 0⟩ single_point_summary).2⟩

/-- C10: with a nonempty location series, an empty heart-rate series gives an
average heart rate of 0 and an empty cadence series gives an average cadence
of 0; both averages are guarded against division by an empty series. -/
theorem avg_guard (dist : Rat → Rat → Rat → Rat → Rat)
    (location_data : List LocationPoint) (h : location_data ≠ [])
    (heart_rate_data cadence_data : List (Rat × Int)) (calories : Int) :
    (∃ s, calculate_summary dist location_data [] cadence_data calories = some s ∧
      s.avg_hr = 0) ∧
    (∃ s, calculate_summary dist location_data heart_rate_data [] calories = some s ∧
      s.avg_cadence_spm = 0) := by
  cases location_data with
  | nil => exact absurd rfl h
  | cons p0 rest =>
      constructor
      · exact ⟨_, rfl, by simp [calculate_summary]⟩
      · exact ⟨_, rfl, by simp [calculate_summary]⟩

/-- C10 witness: a concrete one-point activity with one empty series each
way. -/
theorem avg_guard_witness :
    (([⟨0, 0, 0, 0⟩] : List LocationPoint) ≠ []) ∧
    ((∃ s, calculate_summary (fun _ _ _ _ => 0) [⟨0, 0, 0, 0⟩] [] [(0, 3)] 0
        = some s ∧ s.avg_hr = 0) ∧
     (∃ s, calculate_summary (fun _ _ _ _ => 0) [⟨0, 0, 0, 0⟩] [(0, 3)] [] 0
        = some s ∧ s.avg_cadence_spm = 0)) :=
  ⟨by decide,
    avg_guard (fun _ _ _ _ => 0) [⟨0, 0, 0, 0⟩] (by decide) [(0, 3)] [(0, 3)] 0⟩

/-- The fold of `max` over a list starting from `x` picks an element of
`x :: xs`. -/
theorem foldl_max_mem : ∀ (xs : List Rat) (x : Rat), xs.foldl max x ∈ x :: xs := by
  intro xs
  induction xs with
  | nil => intro x; exact List.mem_cons_self x []
  | cons y ys ih =>
      intro x
      have h1 : (y :: ys).foldl max x = ys.foldl max (max x y) := rfl
      rw [h1]
      have h2 := ih (max x y)
      rcases List.mem_cons.mp h2 with h3 | h3
      · rcases max_choice x y with h4 | h4
        · rw [h3, h4]
          exact List.mem_cons_self x (y :: ys)
        · rw [h3, h4]
          exact List.mem_cons_of_mem x (List.mem_cons_self y ys)
      · exact List.mem_cons_of_mem x (List.mem_cons_of_mem y h3)

/-- The fold of `max` over a list starting from `x` bounds every element of
`x :: xs` from above. -/
theorem foldl_max_le : ∀ (xs : List Rat) (x : Rat), ∀ z ∈ x :: xs, z ≤ xs.foldl max x := by
  intro xs
  induction xs with
  | nil =>
      intro x z hz
      rcases List.mem_cons.mp hz with h1 | h1
      · exact le_of_eq h1
      · exact absurd h1 (List.not_mem_nil z)
  | cons y ys ih =>
      intro x z hz
      have h1 : (y :: ys).foldl max x = ys.foldl max (max x y) := rfl
      rw [h1]
      rcases List.mem_cons.mp hz with h2 | h2
      · exact le_trans (h2 ▸ le_max_left x y)
          (ih (max x y) (max x y) (List.mem_cons_self _ ys))
      rcases List.mem_cons.mp h2 with h3 | h3
      · exact le_trans (h3 ▸ le_max_right x y)
          (ih (max x y) (max x y) (List.mem_cons_self _ ys))
      · exact ih (max x y) z (List.mem_cons_of_mem _ h3)

/-- C8: the extracted calories value is the maximum recorded calorie value
divided by 1000 and truncated toward zero, and 0 when no value is present. -/
theorem calories_from_max (values : List Rat) :
    (values = [] → fetch_calories values = 0) ∧
    (values ≠ [] → ∃ m, m ∈ values ∧ (∀ x ∈ values, x ≤ m) ∧
      fetch_calories values = int_trunc (m / 1000)) := by
  constructor
  · intro h
    rw [h]
    rfl
  · intro h
    cases values with
    | nil => exact absurd rfl h
    | cons v vs =>
        refine ⟨vs.foldl max v, foldl_max_mem vs v, fun x hx => foldl_max_le vs v x hx, ?_⟩
        show compute_calories (some (vs.foldl max v)) = int_trunc (vs.foldl max v / 1000)
        by_cases h0 : vs.foldl max v = 0
        · rw [h0]
          norm_num [compute_calories, int_trunc]
        · simp [compute_calories, h0]

/-- Truncation of an integer-valued rational is the integer itself. -/
theorem int_trunc_intCast (n : Int) : int_trunc (n : Rat) = n := by
  by_cases h : (0 : Rat) ≤ (n : Rat)
  · rw [int_trunc, if_pos h, Int.floor_intCast]
  · rw [int_trunc, if_neg h, Int.ceil_intCast]

/-- C8 witness: the scenario's single raw calorie value 250000 yields 250. -/
theorem calories_from_max_witness :
    (([(250000 : Rat)]) ≠ []) ∧
    (∃ m, m ∈ [(250000 : Rat)] ∧ (∀ x ∈ [(250000 : Rat)], x ≤ m) ∧
      fetch_calories [250000] = int_trunc (m / 1000)) :=
  ⟨by decide, (calories_from_max [250000]).2 (by decide)⟩

/-- C6: an empty location series makes `create_tcx_file` return before any
document construction or file operation, so nothing is written and an
existing output file is untouched; a nonempty series yields one complete
document with one trackpoint per location sample and the first sample's time
as activity id and lap start. -/
theorem create_tcx_skip_on_empty (location_data : List LocationPoint)
    (heart_rate_data cadence_data : List (Rat × Int)) :
    (location_data = [] →
      create_tcx_file location_data heart_rate_data cadence_data = none) ∧
    (location_data ≠ [] → ∃ d,
      create_tcx_file location_data heart_rate_data cadence_data = some d ∧
      d.trackpoints.length = location_data.length ∧
      some d.activity_start = (location_data.head?).map LocationPoint.time ∧
      d.lap_start = d.activity_start) := by
  constructor
  · intro h
    rw [h]
    rfl
  · intro h
    cases location_data with
    | nil => exact absurd rfl h
    | cons p0 rest =>
        refine ⟨_, rfl, ?_, ?_, rfl⟩
        · simp [create_tcx_file]
        · simp [create_tcx_file]

/-- C6 witness: a concrete one-sample activity produces a one-trackpoint
document. -/
theorem create_tcx_skip_on_empty_witness :
    (([⟨0, 1, 2, 3⟩] : List LocationPoint) ≠ []) ∧
    (∃ d, create_tcx_file [⟨0, 1, 2, 3⟩] [] [] = some d ∧
      d.trackpoints.length = ([⟨0, 1, 2, 3⟩] : List LocationPoint).length ∧
      some d.activity_start
        = (([⟨0, 1, 2, 3⟩] : List LocationPoint).head?).map LocationPoint.time ∧
      d.lap_start = d.activity_start) :=
  ⟨by decide, (create_tcx_skip_on_empty [⟨0, 1, 2, 3⟩] [] []).2 (by decide)⟩

/-- The scenario's processed location series, evaluated: each point carries
the altitude of the nearest altitude sample (exact matches here). -/
theorem scenario_location_data_eval :
    scenario_location_data =
      [⟨0, 0, 0, 10⟩, ⟨1, 1 / 10000, 1 / 10000, 12⟩,
        ⟨2, 2 / 10000, 2 / 10000, 11⟩] := by
  norm_num [scenario_location_data, prepare_location_watch,
    scenario_location_rows, scenario_altitude_rows, find_nearest_metric,
    abs_of_nonneg, abs_of_nonpos, LocationPoint.mk.injEq]

/-- The scenario's processed heart-rate series, evaluated. -/
theorem scenario_hr_data_eval :
    scenario_hr_data = [(1 / 2, 140), (3 / 2, 150)] := by
  norm_num [scenario_hr_data, prepare_heart_rate, scenario_hr_rows, int_trunc]

/-- The scenario's processed cadence series, evaluated: the raw 170 and 180
SPM are stored halved as 85 and 90 RPM. -/
theorem scenario_cadence_data_eval :
    scenario_cadence_data = [(0, 85), (2, 90)] := by
  norm_num [scenario_cadence_data, prepare_cadence, scenario_cadence_rows,
    int_trunc]

/-- The scenario's calories, evaluated: 250000 thousandths become 250 kcal. -/
theorem scenario_calories_eval : scenario_calories = 250 := by
  norm_num [scenario_calories, scenario_calorie_values, fetch_calories,
    sql_max, compute_calories, int_trunc, List.max?]

/-- The scenario's complete TCX document: three trackpoints; the tied
heart-rate match at t = 1 resolves to the first sample (140 bpm). -/
theorem scenario_tcx_eval :
    create_tcx_file scenario_location_data scenario_hr_data
        scenario_cadence_data =
      some ⟨0, 0,
        [⟨0, 0, 0, 10, some 140, some 85⟩,
         ⟨1, 1 / 10000, 1 / 10000, 12, some 140, some 85⟩,
         ⟨2, 2 / 10000, 2 / 10000, 11, some 150, some 90⟩]⟩ := by
  rw [scenario_location_data_eval, scenario_hr_data_eval,
    scenario_cadence_data_eval]
  norm_num [create_tcx_file, find_nearest_metric, abs_of_nonneg,
    abs_of_nonpos, TCXDocument.mk.injEq, Trackpoint.mk.injEq]

/-- For any distance function, the scenario summary reports an average
cadence of 175 SPM (twice the 87.5 RPM mean of the stored halved values). -/
theorem scenario_avg_cadence_eval (dist : Rat → Rat → Rat → Rat → Rat) :
    (calculate_summary dist scenario_location_data scenario_hr_data
        scenario_cadence_data scenario_calories).map Summary.avg_cadence_spm
      = some 175 := by
  rw [scenario_location_data_eval, scenario_hr_data_eval,
    scenario_cadence_data_eval]
  norm_num [calculate_summary]
  exact List.cons_ne_nil _ _

/-- For any distance function, the scenario summary reports an elevation
gain of 2 (only the 10 to 12 rise counts). -/
theorem scenario_elevation_eval (dist : Rat → Rat → Rat → Rat → Rat) :
    (calculate_summary dist scenario_location_data scenario_hr_data
        scenario_cadence_data scenario_calories).map Summary.elevation_gain
      = some 2 := by
  rw [scenario_location_data_eval, scenario_hr_data_eval,
    scenario_cadence_data_eval]
  norm_num [calculate_summary, elevation_gain_calc]

/-- C3 counterexample: on the spec's end-to-end scenario the code reports an
average cadence of 175 SPM, not 87.5 SPM as the claim states.  The average
cadence computed by `calculate_summary` does not depend on the pairwise
distance function, which is instantiated here with the zero function. -/
theorem scenario_avg_cadence_not_87_5 :
    (calculate_summary (fun _ _ _ _ => 0) scenario_location_data
        scenario_hr_data scenario_cadence_data scenario_calories).map
      Summary.avg_cadence_spm ≠ some (875 / 10 : Rat) := by
  rw [scenario_avg_cadence_eval (fun _ _ _ _ => 0)]
  norm_num

/-- C3 (amended): on the spec's scenario the output has 3 trackpoints, the
trackpoint at t = 1 gets heart rate 140 bpm (tie broken to the first
sample), elevation gain is 2, calories is 250, and the reported average
cadence is 175 SPM (double the 87.5 RPM mean), for every distance
function. -/
theorem scenario_end_to_end_amended (dist : Rat → Rat → Rat → Rat → Rat) :
    (create_tcx_file scenario_location_data scenario_hr_data
        scenario_cadence_data).map (fun d => d.trackpoints.length) = some 3 ∧
    ((create_tcx_file scenario_location_data scenario_hr_data
        scenario_cadence_data).bind (fun d => d.trackpoints[1]?)).map
      (fun t => (t.time, t.heartRateBpm)) = some (1, some 140) ∧
    (calculate_summary dist scenario_location_data scenario_hr_data
        scenario_cadence_data scenario_calories).map Summary.elevation_gain
      = some 2 ∧
    scenario_calories = 250 ∧
    (calculate_summary dist scenario_location_data scenario_hr_data
        scenario_cadence_data scenario_calories).map Summary.avg_cadence_spm
      = some 175 := by
  refine ⟨?_, ?_, scenario_elevation_eval dist, scenario_calories_eval,
    scenario_avg_cadence_eval dist⟩
  · rw [scenario_tcx_eval]
    rfl
  · rw [scenario_tcx_eval]
    rfl

/-- C7: evaluating the code at the failing input.  The ISO text
`2024-01-02T03:04:05Z` (spec format 3) parses to an aware datetime with a
zero UTC offset; the document writer renders it as `isoformat() + "Z"`,
producing `2024-01-02T03:04:05+00:00Z`, which carries both an explicit
offset and a `Z` suffix — not valid ISO-8601, and rejected by `parse_time`
itself — instead of re-encoding the instant in the spec's ISO-8601 + `Z`
form. -/
theorem parse_time_render_mismatch :
    (parse_time "2024-01-02T03:04:05Z").toOption
      = some ⟨2024, 1, 2, 3, 4, 5, 0, some 0⟩ ∧
    render_time_z ⟨2024, 1, 2, 3, 4, 5, 0, some 0⟩
      = "2024-01-02T03:04:05+00:00Z" ∧
    (parse_time "2024-01-02T03:04:05+00:00Z").toOption = none := by
  refine ⟨by decide, by decide, by decide⟩

end GenerateTcx
